import Mathlib

/-!
Shallow embedding of the forecast-analytics core of the weather app
(`services/forecast_analytics/ai_models.py`): the `WeatherTrendPredictor`
(feature preparation, train, predict, model persistence) and the
`SmartAlertSystem` (threshold alerts), together with theorems checking the
specification's claims against this embedding.

Numeric values are modelled by `ℚ`.  A pandas `NaN` cell is modelled by
`none : Option ℚ`.  Naive timestamps are modelled by a civil day number
plus an hour; `strftime("%Y-%m-%d")` is modelled by the Gregorian
year/month/day triple of the day number (no time component).
-/

namespace WeatherApp

/-! ### Calendar arithmetic

`pd.to_datetime` timestamps are naive datetimes.  Only the civil day number
and the hour are observable through the code under study (`dt.dayofyear`,
`dt.month`, `dt.day`, `dt.hour`, `+ timedelta(days=i)`,
`strftime("%Y-%m-%d")`), so a timestamp is a day number plus an hour.
`civilFromDays` is the standard civil-from-days conversion for the
proleptic Gregorian calendar (day 0 = 1970-01-01). -/

structure Timestamp where
  days : Int
  hour : Int
deriving DecidableEq

/-- Gregorian (year, month, day) of a day number (days since 1970-01-01). -/
def civilFromDays (z0 : Int) : Int × Int × Int :=
  let z := z0 + 719468
  let era := (if 0 ≤ z then z else z - 146096) / 146097
  let doe := z - era * 146097
  let yoe := (doe - doe / 1460 + doe / 36524 - doe / 146096) / 365
  let y := yoe + era * 400
  let doy := doe - (365 * yoe + yoe / 4 - yoe / 100)
  let mp := (5 * doy + 2) / 153
  let d := doy - (153 * mp + 2) / 5 + 1
  let m := if mp < 10 then mp + 3 else mp - 9
  (if m ≤ 2 then y + 1 else y, m, d)

def yearOf (t : Timestamp) : Int := (civilFromDays t.days).1

def monthOf (t : Timestamp) : Int := (civilFromDays t.days).2.1

def dayOf (t : Timestamp) : Int := (civilFromDays t.days).2.2

def isLeap (y : Int) : Bool := (y % 4 == 0 && y % 100 != 0) || y % 400 == 0

/-- Days in the months strictly before month `m` of a year. -/
def daysBeforeMonth (m : Int) (leap : Bool) : Int :=
  let base : Int :=
    if m ≤ 1 then 0 else if m = 2 then 31 else if m = 3 then 59
    else if m = 4 then 90 else if m = 5 then 120 else if m = 6 then 151
    else if m = 7 then 181 else if m = 8 then 212 else if m = 9 then 243
    else if m = 10 then 273 else if m = 11 then 304 else 334
  if leap && decide (2 < m) then base + 1 else base

/-- `dt.dayofyear`: ordinal day within the year, 1-based. -/
def dayOfYearOf (t : Timestamp) : Int :=
  daysBeforeMonth (monthOf t) (isLeap (yearOf t)) + dayOf t

/-! ### Observations and feature preparation (`prepare_features`) -/

/-- One historical observation record.  `timestamp`, `temperature` and
`humidity` are required (the spec declares a missing humidity a caller
error); `pressure` is optional.  Fields the predictor never reads
(`wind_speed`, `description`) are omitted from this record. -/
structure Obs where
  timestamp : Timestamp
  temperature : ℚ
  humidity : ℚ
  pressure : Option ℚ
deriving DecidableEq

/-- Default used only as the out-of-range value of `List.getD`. -/
def dObs : Obs := { timestamp := ⟨0, 0⟩, temperature := 0, humidity := 0, pressure := none }

/-- Arithmetic mean of a list of rationals (`0` on the empty list). -/
def listMean (w : List ℚ) : ℚ := w.sum / (w.length : ℚ)

/-- The trailing window of indices `[max (i-4) 0, i]` of a list: the up-to-5
most recent elements ending at `i` (`window=5` of pandas `rolling`). -/
def window5 {α : Type} (xs : List α) (i : Nat) : List α :=
  (xs.take (i + 1)).drop (i - 4)

/-- `Series.rolling(window=5, min_periods=1).mean()` on a NaN-free column. -/
def rollingAvg5 (xs : List ℚ) : List ℚ :=
  (List.range xs.length).map (fun i => listMean (window5 xs i))

/-- Mean of the non-NaN entries of a window; NaN when all entries are NaN
(with `min_periods=1`, pandas needs at least one non-NaN observation). -/
def meanOpt (w : List (Option ℚ)) : Option ℚ :=
  let vals := w.filterMap id
  if vals.isEmpty then none else some (listMean vals)

/-- `Series.rolling(window=5, min_periods=1).mean()` on a column that may
contain NaN cells. -/
def rollingAvg5Opt (xs : List (Option ℚ)) : List (Option ℚ) :=
  (List.range xs.length).map (fun i => meanOpt (window5 xs i))

/-- `df.get('pressure', pd.Series([1013] * len(df)))`: the pressure column
exists as soon as one record carries a pressure (records without one get a
NaN cell); when no record carries a pressure the default all-1013 series is
used. -/
def pressureSeries (data : List Obs) : List (Option ℚ) :=
  if data.all (fun o => o.pressure.isNone) then data.map (fun _ => some 1013)
  else data.map (fun o => o.pressure)

/-- One row of the feature matrix handed to the scaler/model. -/
structure FeatureRow where
  day_of_year : Int
  month : Int
  day : Int
  hour : Int
  temp_rolling_avg : ℚ
  humidity_rolling_avg : ℚ
  pressure_rolling_avg : Option ℚ
deriving DecidableEq

/-- Default used only as the out-of-range value of `List.getD`. -/
def dRow : FeatureRow :=
  { day_of_year := 0, month := 0, day := 0, hour := 0,
    temp_rolling_avg := 0, humidity_rolling_avg := 0, pressure_rolling_avg := none }

/-- Row `i` of the feature matrix, given the three rolling-average columns. -/
def featureRow (data : List Obs) (tRA hRA : List ℚ) (pRA : List (Option ℚ))
    (i : Nat) : FeatureRow :=
  let t := (data.getD i dObs).timestamp
  { day_of_year := dayOfYearOf t
    month := monthOf t
    day := dayOf t
    hour := t.hour
    temp_rolling_avg := tRA.getD i 0
    humidity_rolling_avg := hRA.getD i 0
    pressure_rolling_avg := pRA.getD i none }

/-- `WeatherTrendPredictor.prepare_features`: calendar features from each
timestamp plus the three rolling-average columns — which are genuine
5-element rolling means only when `len(df) > 5`, and otherwise are the raw
columns themselves.  Returns the feature rows and the temperature targets. -/
def prepare_features (data : List Obs) : List FeatureRow × List ℚ :=
  let temps := data.map (fun o => o.temperature)
  let hums := data.map (fun o => o.humidity)
  let press := pressureSeries data
  let cols :=
    if 5 < data.length then
      (rollingAvg5 temps, rollingAvg5 hums, rollingAvg5Opt press)
    else (temps, hums, press)
  ((List.range data.length).map (featureRow data cols.1 cols.2.1 cols.2.2), temps)

/-! ### Predictor state, persistence, train and predict

The regression model and the scaler come from sklearn; their numeric
kernels are opaque to the code under study, so they are modelled by an
abstract model-state type `M`, an abstract fitted-scaler-parameter type `S`
and deterministic functions over them (`MLLib`).  What the code itself
determines — which state is held, what is persisted, when the
insufficient-data sentinels fire, how future feature rows are built, and
that an unfitted scaler cannot transform — is embedded concretely. -/

/-- The sklearn kernels used by `WeatherTrendPredictor`, as opaque
deterministic functions.  A feature-matrix cell is `Option ℚ`
(`none` = NaN). -/
structure MLLib (M S : Type) where
  /-- `RandomForestRegressor(n_estimators=100, random_state=42)`, untrained. -/
  defaultModel : M
  /-- `StandardScaler.fit`: parameters computed from a feature matrix. -/
  scalerFit : List (List (Option ℚ)) → S
  /-- `StandardScaler.transform` of one row, given fitted parameters. -/
  scalerTransform : S → List (Option ℚ) → List (Option ℚ)
  /-- `model.fit(X_scaled, y)`: new model state from the old instance. -/
  modelFit : M → List (List (Option ℚ)) → List ℚ → M
  /-- `model.predict` of one row. -/
  modelPredict : M → List (Option ℚ) → ℚ

/-- In-memory state of a `WeatherTrendPredictor`: the held model and the
scaler, whose parameters are `none` while the scaler is unfitted (a fresh
`StandardScaler()`). -/
structure Predictor (M S : Type) where
  model : M
  scaler : Option S
deriving DecidableEq

/-- The artifact file at the fixed path `models/weather_trend_model.pkl`:
absent, or a pickled model state (`joblib.dump(self.model, ...)` writes
only the model). -/
abbrev Artifact (M : Type) := Option M

/-- `load_or_create_model`: the artifact if the file exists, otherwise the
default untrained model. -/
def load_or_create_model {M S : Type} (lib : MLLib M S) (fs : Artifact M) : M :=
  fs.getD lib.defaultModel

/-- `WeatherTrendPredictor.__init__`: load or create the model; the scaler
is a fresh, unfitted `StandardScaler()`. -/
def mkPredictor {M S : Type} (lib : MLLib M S) (fs : Artifact M) : Predictor M S :=
  { model := load_or_create_model lib fs, scaler := none }

/-- The numeric row handed to the scaler/model for a feature row. -/
def rowVals (r : FeatureRow) : List (Option ℚ) :=
  [some (r.day_of_year : ℚ), some (r.month : ℚ), some (r.day : ℚ), some (r.hour : ℚ),
   some r.temp_rolling_avg, some r.humidity_rolling_avg, r.pressure_rolling_avg]

/-- `WeatherTrendPredictor.train`, with the in-memory state and the
artifact file passed explicitly.  Fewer than 10 observations: return
`false` and change nothing.  Otherwise: prepare features, `fit_transform`
the scaler from scratch, fit the model on the scaled matrix against the
temperature targets, persist the model (and only the model) to the
artifact, return `true`. -/
def train {M S : Type} (lib : MLLib M S) (p : Predictor M S) (fs : Artifact M)
    (data : List Obs) : Bool × Predictor M S × Artifact M :=
  if data.length < 10 then (false, p, fs)
  else
    let xy := prepare_features data
    let xm := xy.1.map rowVals
    let params := lib.scalerFit xm
    let xScaled := xm.map (lib.scalerTransform params)
    let m := lib.modelFit p.model xScaled xy.2
    (true, { model := m, scaler := some params }, some m)

/-- One output record of `predict`: `date` is the Gregorian (year, month,
day) triple rendered by `strftime("%Y-%m-%d")` — no time component. -/
structure PredictionPoint where
  date : Int × Int × Int
  predicted_temperature : ℚ
deriving DecidableEq

/-- Default used only as the out-of-range value of `List.getD`. -/
def dPoint : PredictionPoint := { date := (0, 0, 0), predicted_temperature := 0 }

instance {ε α : Type} [DecidableEq ε] [DecidableEq α] : DecidableEq (Except ε α) := fun x y =>
  match x, y with
  | .ok a, .ok b =>
    if h : a = b then isTrue (by rw [h])
    else isFalse (by intro hh; cases hh; exact h rfl)
  | .ok _, .error _ => isFalse (by intro h; cases h)
  | .error _, .ok _ => isFalse (by intro h; cases h)
  | .error e, .error e' =>
    if h : e = e' then isTrue (by rw [h])
    else isFalse (by intro hh; cases hh; exact h rfl)

/-- `WeatherTrendPredictor.predict`.  Fewer than 5 observations: the
insufficient-data sentinel `.ok none`.  Otherwise build one synthetic
feature row per future day `last_timestamp + 1 .. horizon`, with real
calendar fields but the frozen last rolling averages; transforming with an
unfitted scaler raises (`.error`), else scale, run the model, and return
one dated point per future day. -/
def predict {M S : Type} (lib : MLLib M S) (p : Predictor M S) (data : List Obs)
    (days_to_predict : Nat) : Except String (Option (List PredictionPoint)) :=
  if data.length < 5 then .ok none
  else
    let x := (prepare_features data).1
    let lastTs := (data.getLast?.getD dObs).timestamp
    let futureDates := (List.range days_to_predict).map
      (fun i => ({ days := lastTs.days + (Int.ofNat i + 1), hour := lastTs.hour } : Timestamp))
    let lastRow := x.getLast?.getD dRow
    let futureRows := futureDates.map (fun t =>
      [some ((dayOfYearOf t : ℚ)), some ((monthOf t : ℚ)), some ((dayOf t : ℚ)),
       some ((t.hour : ℚ)), some lastRow.temp_rolling_avg,
       some lastRow.humidity_rolling_avg, lastRow.pressure_rolling_avg])
    match p.scaler with
    | none => .error "StandardScaler instance is not fitted yet"
    | some params =>
      let preds := futureRows.map (fun r => lib.modelPredict p.model (lib.scalerTransform params r))
      .ok (some (List.zipWith
        (fun t q => { date := civilFromDays t.days, predicted_temperature := q })
        futureDates preds))

/-! ### The `SmartAlertSystem` -/

/-- The four mutable thresholds of a `SmartAlertSystem`. -/
structure Thresholds where
  extreme_heat_threshold : ℚ
  freezing_threshold : ℚ
  high_wind_threshold : ℚ
  heavy_rain_threshold : ℚ
deriving DecidableEq

/-- `SmartAlertSystem.__init__`: 35 °C, 0 °C, 20 m/s, 10 mm/h. -/
def initThresholds : Thresholds :=
  { extreme_heat_threshold := 35, freezing_threshold := 0,
    high_wind_threshold := 20, heavy_rain_threshold := 10 }

/-- The fixed storm keyword list, in scan order. -/
def storm_keywords : List (List Char) :=
  ["thunderstorm".toList, "storm".toList, "hurricane".toList, "tornado".toList]

/-- Python's `pat in s` for strings: contiguous-substring containment. -/
def substrIn (pat : List Char) (s : List Char) : Bool :=
  match s with
  | [] => pat.isEmpty
  | _ :: rest => pat.isPrefixOf s || substrIn pat rest

/-- One forecast record as consumed by `analyze_forecast`; every field may
be absent (`forecast.get(...)`). -/
structure ForecastPoint where
  timestamp : Option (List Char)
  date : Option (List Char)
  temperature : Option ℚ
  wind_speed : Option ℚ
  description : Option (List Char)
deriving DecidableEq

/-- `forecast.get('timestamp', forecast.get('date', ''))`. -/
def dateOf (f : ForecastPoint) : List Char :=
  f.timestamp.getD (f.date.getD [])

/-- `forecast.get('description', '').lower()`. -/
def lowerDesc (f : ForecastPoint) : List Char :=
  (f.description.getD []).map Char.toLower

inductive AlertType
  | extreme_heat
  | freezing
  | high_winds
  | storm
deriving DecidableEq

/-- The `value` field of an alert: the triggering number, or, for storm
alerts, the scanned description text. -/
inductive AlertValue
  | num (q : ℚ)
  | text (s : List Char)
deriving DecidableEq

/-- One alert record.  The `message` field of the original — a
human-readable string interpolating exactly `value` and `date`, whose
wording the spec excludes from the compatibility contract — is not
modelled separately. -/
structure Alert where
  type : AlertType
  date : List Char
  value : AlertValue
deriving DecidableEq

/-- The alerts produced for one forecast point: the three threshold rules,
then the storm keyword scan, which stops at the first matching keyword. -/
def pointAlerts (t : Thresholds) (f : ForecastPoint) : List Alert :=
  let date := dateOf f
  let temp := f.temperature.getD 0
  let wind := f.wind_speed.getD 0
  let description := lowerDesc f
  let heatAlerts :=
    if t.extreme_heat_threshold ≤ temp then
      [{ type := .extreme_heat, date := date, value := .num temp }] else []
  let freezeAlerts :=
    if temp ≤ t.freezing_threshold then
      [{ type := .freezing, date := date, value := .num temp }] else []
  let windAlerts :=
    if t.high_wind_threshold ≤ wind then
      [{ type := .high_winds, date := date, value := .num wind }] else []
  let stormAlerts :=
    match storm_keywords.find? (fun kw => substrIn kw description) with
    | some _ => [{ type := .storm, date := date, value := .text description }]
    | none => []
  heatAlerts ++ freezeAlerts ++ windAlerts ++ stormAlerts

/-- `SmartAlertSystem.analyze_forecast`: concatenate the alerts of each
forecast point in order. -/
def analyze_forecast (t : Thresholds) (forecast_data : List ForecastPoint) : List Alert :=
  forecast_data.flatMap (pointAlerts t)

/-- `SmartAlertSystem.set_thresholds`: each threshold is overwritten only
when the corresponding argument is not `None`. -/
def set_thresholds (t : Thresholds) (extreme_heat freezing high_wind heavy_rain : Option ℚ) :
    Thresholds :=
  let t1 := match extreme_heat with
    | some v => { t with extreme_heat_threshold := v }
    | none => t
  let t2 := match freezing with
    | some v => { t1 with freezing_threshold := v }
    | none => t1
  let t3 := match high_wind with
    | some v => { t2 with high_wind_threshold := v }
    | none => t2
  match heavy_rain with
  | some v => { t3 with heavy_rain_threshold := v }
  | none => t3

/-! ### Concrete inputs used by counterexamples and witnesses -/

/-- A daily observation at noon of day `d` with the given temperature,
humidity 50 and no pressure reading. -/
def exObs (d : Int) (temp : ℚ) : Obs :=
  { timestamp := ⟨d, 12⟩, temperature := temp, humidity := 50, pressure := none }

/-- The spec's worked example: 5 observations with temperatures
`[10, 20, 10, 20, 10]`. -/
def ex5 : List Obs := [exObs 0 10, exObs 1 20, exObs 2 10, exObs 3 20, exObs 4 10]

/-- Six observations, enough to enter the `len(df) > 5` branch. -/
def ex6 : List Obs :=
  [exObs 0 10, exObs 1 20, exObs 2 10, exObs 3 20, exObs 4 10, exObs 5 20]

/-- Ten observations, enough to train. -/
def ex10 : List Obs :=
  [exObs 0 10, exObs 1 20, exObs 2 10, exObs 3 20, exObs 4 10,
   exObs 5 20, exObs 6 10, exObs 7 20, exObs 8 10, exObs 9 20]

/-- Two observations where the first lacks a pressure reading and the
second has one, so the pressure column exists but its first cell is NaN. -/
def exMixed : List Obs :=
  [exObs 0 10, { exObs 1 20 with pressure := some 1000 }]

/-- A forecast point whose description is "Severe Thunderstorm Warning". -/
def sevPoint : ForecastPoint :=
  { timestamp := some "2023-01-01".toList, date := none, temperature := some 20,
    wind_speed := some 5, description := some "Severe Thunderstorm Warning".toList }

/-- A forecast point with every field absent. -/
def emptyPoint : ForecastPoint :=
  { timestamp := none, date := none, temperature := none, wind_speed := none,
    description := none }

/-- A 38 °C forecast point. -/
def warmPoint : ForecastPoint :=
  { timestamp := some "2023-07-01".toList, date := none, temperature := some 38,
    wind_speed := some 3, description := some "sunny".toList }

/-- Trivial instantiation of the opaque sklearn kernels, used to witness
theorems that hold for every instantiation. -/
def trivLib : MLLib Unit Unit :=
  { defaultModel := (), scalerFit := fun _ => (), scalerTransform := fun _ r => r,
    modelFit := fun _ _ _ => (), modelPredict := fun _ _ => 0 }

/-- Kernels whose model state records whether the model has been fitted,
separating the default untrained model (`false`) from a trained one
(`true`). -/
def flagLib : MLLib Bool Unit :=
  { defaultModel := false, scalerFit := fun _ => (), scalerTransform := fun _ r => r,
    modelFit := fun _ _ _ => true, modelPredict := fun _ _ => 0 }

/-- Does `predict` succeed with an actual list of points? -/
def isOkSome (e : Except String (Option (List PredictionPoint))) : Bool :=
  match e with
  | .ok (some _) => true
  | _ => false

/-! ### Helper lemmas -/

lemma getD_map_range {α : Type} (f : Nat → α) {n i : Nat} (d : α) (h : i < n) :
    ((List.range n).map f).getD i d = f i := by
  simp [List.getD_eq_getElem?_getD, List.getElem?_map, List.getElem?_range, h]

lemma getD_map_of_lt {α β : Type} (f : α → β) (l : List α) {i : Nat} (d : β) (d' : α)
    (h : i < l.length) : (l.map f).getD i d = f (l.getD i d') := by
  simp [List.getD_eq_getElem?_getD, List.getElem?_map, List.getElem?_eq_getElem, h]

/-! ### C4: train on fewer than 10 observations -/

/-- **C4**: for every input of fewer than 10 observations, `train` returns
`false` and changes nothing — the in-memory model and scaler are unchanged
and the artifact file is neither created nor overwritten. -/
theorem train_insufficient_noop {M S : Type} (lib : MLLib M S) (p : Predictor M S)
    (fs : Artifact M) (data : List Obs) (h : data.length < 10) :
    train lib p fs data = (false, p, fs) := by
  simp [train, h]

/-- Witness for `train_insufficient_noop` at the 5-element history. -/
theorem train_insufficient_noop_witness :
    ex5.length < 10 ∧
      train trivLib ⟨(), none⟩ none ex5 = (false, ⟨(), none⟩, none) :=
  ⟨by decide, train_insufficient_noop trivLib ⟨(), none⟩ none ex5 (by decide)⟩

/-! ### C5: predict on fewer than 5 observations -/

/-- **C5**: for every input of fewer than 5 observations and every
horizon, `predict` returns the insufficient-data sentinel (`None`) rather
than raising a fault. -/
theorem predict_insufficient_none {M S : Type} (lib : MLLib M S) (p : Predictor M S)
    (data : List Obs) (days_to_predict : Nat) (h : data.length < 5) :
    predict lib p data days_to_predict = .ok none := by
  simp [predict, h]

/-- Witness for `predict_insufficient_none` at a 1-element history and
horizon 7. -/
theorem predict_insufficient_none_witness :
    [exObs 0 10].length < 5 ∧
      predict trivLib ⟨(), none⟩ [exObs 0 10] 7 = .ok none :=
  ⟨by decide, predict_insufficient_none trivLib ⟨(), none⟩ [exObs 0 10] 7 (by decide)⟩

/-! ### C8: the heavy-rain threshold is inert -/

/-- **C8**: two alert systems that differ only in `heavy_rain_threshold`
produce identical alert lists on every forecast input — no rule reads the
heavy-rain threshold. -/
theorem heavy_rain_threshold_inert (t : Thresholds) (v₁ v₂ : ℚ)
    (pts : List ForecastPoint) :
    analyze_forecast { t with heavy_rain_threshold := v₁ } pts
      = analyze_forecast { t with heavy_rain_threshold := v₂ } pts := rfl

/-! ### C7: partial threshold updates -/

/-- **C7**: `set_thresholds` updates exactly the thresholds supplied with a
non-null value — each resulting field is the supplied value when present
and the old value otherwise, with no range validation — so the all-null
call changes nothing, and after `set_thresholds(extreme_heat=40)` a 38 °C
point produces no extreme-heat alert. -/
theorem set_thresholds_partial_update (t : Thresholds)
    (extreme_heat freezing high_wind heavy_rain : Option ℚ) :
    (set_thresholds t extreme_heat freezing high_wind heavy_rain).extreme_heat_threshold
        = extreme_heat.getD t.extreme_heat_threshold
  ∧ (set_thresholds t extreme_heat freezing high_wind heavy_rain).freezing_threshold
        = freezing.getD t.freezing_threshold
  ∧ (set_thresholds t extreme_heat freezing high_wind heavy_rain).high_wind_threshold
        = high_wind.getD t.high_wind_threshold
  ∧ (set_thresholds t extreme_heat freezing high_wind heavy_rain).heavy_rain_threshold
        = heavy_rain.getD t.heavy_rain_threshold
  ∧ set_thresholds t none none none none = t
  ∧ (analyze_forecast (set_thresholds t (some 40) none none none) [warmPoint]).countP
        (fun a => a.type == AlertType.extreme_heat) = 0 := by
  refine ⟨?_, ?_, ?_, ?_, ?_, ?_⟩
  · cases extreme_heat <;> cases freezing <;> cases high_wind <;> cases heavy_rain <;>
      simp [set_thresholds]
  · cases extreme_heat <;> cases freezing <;> cases high_wind <;> cases heavy_rain <;>
      simp [set_thresholds]
  · cases extreme_heat <;> cases freezing <;> cases high_wind <;> cases heavy_rain <;>
      simp [set_thresholds]
  · cases extreme_heat <;> cases freezing <;> cases high_wind <;> cases heavy_rain <;>
      simp [set_thresholds]
  · simp [set_thresholds]
  · have h40 : ¬ ((40 : ℚ) ≤ 38) := by norm_num
    simp only [analyze_forecast, List.flatMap_cons, List.flatMap_nil, List.append_nil,
      pointAlerts, set_thresholds, warmPoint, Option.getD_some]
    rw [if_neg h40, List.nil_append]
    split <;> split <;> split <;> simp

/-! ### C10: defaulting of missing forecast fields -/

/-- **C10**: `analyze_forecast` treats a missing temperature as 0, a
missing wind speed as 0 and a missing description as the empty string —
each substitution leaves the output unchanged — and, under the default
thresholds, every point lacking a temperature fires a freezing alert with
value 0. -/
theorem missing_fields_default (t : Thresholds) (f : ForecastPoint) :
    (f.temperature = none →
      analyze_forecast t [f] = analyze_forecast t [{ f with temperature := some 0 }])
  ∧ (f.wind_speed = none →
      analyze_forecast t [f] = analyze_forecast t [{ f with wind_speed := some 0 }])
  ∧ (f.description = none →
      analyze_forecast t [f] = analyze_forecast t [{ f with description := some [] }])
  ∧ (f.temperature = none →
      ∃ a ∈ analyze_forecast initThresholds [f],
        a.type = AlertType.freezing ∧ a.value = AlertValue.num 0) := by
  refine ⟨?_, ?_, ?_, ?_⟩
  · intro h
    simp [analyze_forecast, pointAlerts, dateOf, lowerDesc, h]
  · intro h
    simp [analyze_forecast, pointAlerts, dateOf, lowerDesc, h]
  · intro h
    simp [analyze_forecast, pointAlerts, dateOf, lowerDesc, h]
  · intro h
    refine ⟨⟨AlertType.freezing, dateOf f, AlertValue.num 0⟩, ?_, rfl, rfl⟩
    have h35 : ¬ ((35 : ℚ) ≤ 0) := by norm_num
    simp [analyze_forecast, pointAlerts, initThresholds, h, h35]

/-- Witness for `missing_fields_default` at the all-fields-absent point. -/
theorem missing_fields_default_witness :
    emptyPoint.temperature = none ∧
      ∃ a ∈ analyze_forecast initThresholds [emptyPoint],
        a.type = AlertType.freezing ∧ a.value = AlertValue.num 0 :=
  ⟨rfl, (missing_fields_default initThresholds emptyPoint).2.2.2 rfl⟩

/-! ### C6: at most one storm alert per point -/

/-- **C6**: each forecast point yields at most one storm alert; when some
keyword of the fixed set occurs in the lower-cased description, the storm
alerts are exactly one alert carrying the scanned description as value;
and the point described "Severe Thunderstorm Warning" fires exactly one
storm alert. -/
theorem storm_alert_once (t : Thresholds) (f : ForecastPoint) :
    (analyze_forecast t [f]).countP (fun a => a.type == AlertType.storm) ≤ 1
  ∧ ((∃ kw ∈ storm_keywords, substrIn kw (lowerDesc f) = true) →
      (analyze_forecast t [f]).filter (fun a => a.type == AlertType.storm)
        = [{ type := AlertType.storm, date := dateOf f, value := AlertValue.text (lowerDesc f) }])
  ∧ (analyze_forecast initThresholds [sevPoint]).countP
      (fun a => a.type == AlertType.storm) = 1 := by
  refine ⟨?_, ?_, ?_⟩
  · simp only [analyze_forecast, List.flatMap_cons, List.flatMap_nil, List.append_nil,
      pointAlerts, List.countP_append]
    split <;> split <;> split <;>
      (cases hf : storm_keywords.find? (fun kw => substrIn kw (lowerDesc f)) <;> simp)
  · intro hkw
    cases hf : storm_keywords.find? (fun kw => substrIn kw (lowerDesc f)) with
    | none =>
      rw [List.find?_eq_none] at hf
      obtain ⟨kw, hmem, hsub⟩ := hkw
      exact absurd hsub (by simpa using hf kw hmem)
    | some kw =>
      simp only [analyze_forecast, List.flatMap_cons, List.flatMap_nil, List.append_nil,
        pointAlerts, hf, List.filter_append]
      split <;> split <;> split <;> simp
  · with_unfolding_all decide

/-- Witness for `storm_alert_once` at the "Severe Thunderstorm Warning"
point. -/
theorem storm_alert_once_witness :
    (∃ kw ∈ storm_keywords, substrIn kw (lowerDesc sevPoint) = true) ∧
      (analyze_forecast initThresholds [sevPoint]).filter
          (fun a => a.type == AlertType.storm)
        = [{ type := AlertType.storm, date := dateOf sevPoint,
             value := AlertValue.text (lowerDesc sevPoint) }] :=
  ⟨by decide, (storm_alert_once initThresholds sevPoint).2.1 (by decide)⟩

/-! ### C2: the persisted artifact misses the scaler -/

/-- **C2** (code bug): with kernels whose model state records fitting,
training on a 10-observation history succeeds and the trained instance can
predict — but the artifact receives only the model state, so a fresh
predictor built over that artifact still holds an unfitted scaler and its
`predict` on the same input raises instead of reproducing the output. -/
theorem artifact_missing_scaler_bug :
    (train flagLib (mkPredictor flagLib none) none ex10).1 = true
  ∧ (train flagLib (mkPredictor flagLib none) none ex10).2.2 = some true
  ∧ (mkPredictor flagLib (train flagLib (mkPredictor flagLib none) none ex10).2.2).scaler = none
  ∧ isOkSome (predict flagLib (train flagLib (mkPredictor flagLib none) none ex10).2.1 ex10 7)
      = true
  ∧ predict flagLib
        (mkPredictor flagLib (train flagLib (mkPredictor flagLib none) none ex10).2.2) ex10 7
      = .error "StandardScaler instance is not fitted yet" := by
  refine ⟨?_, ?_, ?_, ?_, ?_⟩ <;> with_unfolding_all decide

/-! ### C3: horizon length and prediction dates -/

lemma zipWith_map_map {α β γ δ : Type} (f : β → γ → δ) (g : α → β) (h : α → γ)
    (l : List α) :
    List.zipWith f (l.map g) (l.map h) = l.map (fun a => f (g a) (h a)) := by
  induction l with
  | nil => rfl
  | cons a l ih => simp [ih]

/-- **C3**: for a trained predictor (fitted scaler), any input of at least
5 observations and any horizon `k ≥ 1`, `predict` returns exactly `k`
points, the `i`-th of which is dated with the calendar date of day number
`last + i + 1` — the dates advance one calendar day at a time starting the
day after the last input timestamp. -/
theorem predict_horizon_dates {M S : Type} (lib : MLLib M S) (p : Predictor M S)
    (ps : S) (data : List Obs) (k : Nat)
    (hs : p.scaler = some ps) (hd : 5 ≤ data.length) (_hk : 1 ≤ k) :
    ∃ pts : List PredictionPoint,
      predict lib p data k = .ok (some pts) ∧ pts.length = k ∧
      ∀ i, i < k →
        (pts.getD i dPoint).date
          = civilFromDays ((data.getLast?.getD dObs).timestamp.days + ((i : Int) + 1)) := by
  unfold predict
  rw [if_neg (by omega), hs]
  refine ⟨_, rfl, ?_, ?_⟩
  · simp only [List.map_map]
    rw [zipWith_map_map]
    simp
  · intro i hi
    simp only [List.map_map]
    rw [zipWith_map_map, getD_map_range _ _ (by simpa using hi)]
    rfl

/-- Witness for `predict_horizon_dates` at the 5-element history and
horizon 2. -/
theorem predict_horizon_dates_witness :
    ((⟨(), some ()⟩ : Predictor Unit Unit).scaler = some ()) ∧ 5 ≤ ex5.length ∧ (1 : Nat) ≤ 2 ∧
      ∃ pts : List PredictionPoint,
        predict trivLib ⟨(), some ()⟩ ex5 2 = .ok (some pts) ∧ pts.length = 2 ∧
        ∀ i, i < 2 →
          (pts.getD i dPoint).date
            = civilFromDays ((ex5.getLast?.getD dObs).timestamp.days + ((i : Int) + 1)) :=
  ⟨rfl, by decide, by decide,
    predict_horizon_dates trivLib ⟨(), some ()⟩ () ex5 2 rfl (by decide) (by decide)⟩

/-! ### Rolling-average helper lemmas -/

lemma rollingAvg5_getD (xs : List ℚ) {i : Nat} (h : i < xs.length) :
    (rollingAvg5 xs).getD i 0 = listMean (window5 xs i) := by
  unfold rollingAvg5
  exact getD_map_range _ _ h

lemma rollingAvg5Opt_getD (xs : List (Option ℚ)) {i : Nat} (h : i < xs.length) :
    (rollingAvg5Opt xs).getD i none = meanOpt (window5 xs i) := by
  unfold rollingAvg5Opt
  exact getD_map_range _ _ h

lemma window5_map {α β : Type} (f : α → β) (xs : List α) (i : Nat) :
    window5 (xs.map f) i = (window5 xs i).map f := by
  simp [window5, List.map_take, List.map_drop]

lemma window5_ne_nil {α : Type} (xs : List α) {i : Nat} (h : i < xs.length) :
    window5 xs i ≠ [] := by
  have hlen : (window5 xs i).length = min (i + 1) xs.length - (i - 4) := by
    simp [window5, List.length_drop, List.length_take]
  intro hnil
  rw [hnil] at hlen
  simp only [List.length_nil] at hlen
  omega

lemma window5_cons_zero {α : Type} (a : α) (l : List α) : window5 (a :: l) 0 = [a] := rfl

lemma listMean_singleton (a : ℚ) : listMean [a] = a := by
  simp [listMean]

lemma meanOpt_map_some (w : List ℚ) (h : w ≠ []) :
    meanOpt (w.map some) = some (listMean w) := by
  have hfm : (w.map some).filterMap id = w := by
    induction w with
    | nil => rfl
    | cons a w ih => simp [List.filterMap_cons, ih]
  cases w with
  | nil => exact absurd rfl h
  | cons a w => simp [meanOpt, hfm]

lemma meanOpt_singleton_some (a : ℚ) : meanOpt [some a] = some a := by
  simp [meanOpt, listMean]

lemma meanOpt_singleton_none : meanOpt [(none : Option ℚ)] = none := by
  simp [meanOpt]

lemma pressureSeries_length (data : List Obs) :
    (pressureSeries data).length = data.length := by
  unfold pressureSeries
  split <;> simp

lemma pressureSeries_uniform (data : List Obs)
    (h : data.all (fun o => o.pressure.isSome) = true
        ∨ data.all (fun o => o.pressure.isNone) = true) :
    pressureSeries data = data.map (fun o => some (o.pressure.getD 1013)) := by
  unfold pressureSeries
  rcases h with h | h
  · split
    case isTrue hn =>
      refine List.map_congr_left fun o ho => ?_
      have h2 := (List.all_eq_true.mp hn) o ho
      cases hp : o.pressure with
      | none => simp
      | some q => rw [hp] at h2; simp at h2
    case isFalse hn =>
      refine List.map_congr_left fun o ho => ?_
      have h1 := (List.all_eq_true.mp h) o ho
      cases hp : o.pressure with
      | none => rw [hp] at h1; simp at h1
      | some q => simp
  · rw [if_pos h]
    refine List.map_congr_left fun o ho => ?_
    have h2 := (List.all_eq_true.mp h) o ho
    cases hp : o.pressure with
    | none => simp
    | some q => rw [hp] at h2; simp at h2

/-! ### C1: rolling-average features -/

/-- **C1** counterexample: on the spec's own 5-element example —
temperatures `[10, 20, 10, 20, 10]` — the mean over the window
`[max (i-4) 0, i]` at the 5th element is 14, but `prepare_features` only
computes rolling means when `len(df) > 5`, so the 5th element's
`temp_rolling_avg` is the raw temperature 10, not 14. -/
theorem rolling_avg_five_elt_counterexample :
    ex5.length = 5
  ∧ listMean (window5 (ex5.map (fun o => o.temperature)) 4) = 14
  ∧ ((prepare_features ex5).1.getD 4 dRow).temp_rolling_avg = 10
  ∧ ¬ ((prepare_features ex5).1.getD 4 dRow).temp_rolling_avg = 14 := by
  refine ⟨?_, ?_, ?_, ?_⟩ <;> with_unfolding_all decide

/-- **C1** amended: only for inputs of MORE than 5 observations is each
rolling-average feature the mean over indices `[max (i-4) 0, i]` (for the
pressure column, of the pressure-or-1013-default values, provided pressure
presence is uniform over the sequence so that the column is NaN-free); for
inputs of at most 5 observations the feature is the observation's own
value — in particular the spec's 5-element example yields 10, not 14. -/
theorem rolling_avg_amended (data : List Obs) (i : Nat) (hi : i < data.length) :
    ((5 < data.length →
        ((prepare_features data).1.getD i dRow).temp_rolling_avg
            = listMean (window5 (data.map (fun o => o.temperature)) i)
      ∧ ((prepare_features data).1.getD i dRow).humidity_rolling_avg
            = listMean (window5 (data.map (fun o => o.humidity)) i)
      ∧ ((data.all (fun o => o.pressure.isSome) = true
            ∨ data.all (fun o => o.pressure.isNone) = true) →
          ((prepare_features data).1.getD i dRow).pressure_rolling_avg
            = some (listMean (window5 (data.map (fun o => o.pressure.getD 1013)) i))))
  ∧ (data.length ≤ 5 →
        ((prepare_features data).1.getD i dRow).temp_rolling_avg
            = (data.getD i dObs).temperature
      ∧ ((prepare_features data).1.getD i dRow).humidity_rolling_avg
            = (data.getD i dObs).humidity
      ∧ ((data.all (fun o => o.pressure.isSome) = true
            ∨ data.all (fun o => o.pressure.isNone) = true) →
          ((prepare_features data).1.getD i dRow).pressure_rolling_avg
            = some ((data.getD i dObs).pressure.getD 1013))))
  ∧ ((prepare_features ex5).1.getD 4 dRow).temp_rolling_avg = 10 := by
  constructor
  · constructor
    · intro h5
      have hrow : (prepare_features data).1.getD i dRow
          = featureRow data (rollingAvg5 (data.map (fun o => o.temperature)))
              (rollingAvg5 (data.map (fun o => o.humidity)))
              (rollingAvg5Opt (pressureSeries data)) i := by
        simp only [prepare_features, if_pos h5]
        exact getD_map_range _ _ hi
      refine ⟨?_, ?_, ?_⟩
      · rw [hrow]
        simp only [featureRow]
        exact rollingAvg5_getD _ (by simpa using hi)
      · rw [hrow]
        simp only [featureRow]
        exact rollingAvg5_getD _ (by simpa using hi)
      · intro hu
        rw [hrow]
        simp only [featureRow]
        rw [pressureSeries_uniform data hu]
        rw [show data.map (fun o => some (o.pressure.getD 1013))
              = (data.map (fun o => o.pressure.getD 1013)).map some by
            simp [List.map_map]]
        rw [rollingAvg5Opt_getD _ (by simpa using hi), window5_map]
        exact meanOpt_map_some _ (window5_ne_nil _ (by simpa using hi))
    · intro h5
      have hrow : (prepare_features data).1.getD i dRow
          = featureRow data (data.map (fun o => o.temperature))
              (data.map (fun o => o.humidity)) (pressureSeries data) i := by
        simp only [prepare_features, if_neg (by omega : ¬ 5 < data.length)]
        exact getD_map_range _ _ hi
      refine ⟨?_, ?_, ?_⟩
      · rw [hrow]
        simp only [featureRow]
        exact getD_map_of_lt _ _ _ dObs hi
      · rw [hrow]
        simp only [featureRow]
        exact getD_map_of_lt _ _ _ dObs hi
      · intro hu
        rw [hrow]
        simp only [featureRow]
        rw [pressureSeries_uniform data hu]
        exact getD_map_of_lt _ _ _ dObs hi
  · with_unfolding_all decide

/-- Witness for `rolling_avg_amended`, exercising the rolling branch at
the 6-element history and the raw branch at the 5-element one. -/
theorem rolling_avg_amended_witness :
    (5 < ex6.length ∧
      ((prepare_features ex6).1.getD 5 dRow).temp_rolling_avg
        = listMean (window5 (ex6.map (fun o => o.temperature)) 5)) ∧
    (ex5.length ≤ 5 ∧
      ((prepare_features ex5).1.getD 4 dRow).temp_rolling_avg
        = (ex5.getD 4 dObs).temperature) :=
  ⟨⟨by decide, ((rolling_avg_amended ex6 5 (by decide)).1.1 (by decide)).1⟩,
   ⟨by decide, ((rolling_avg_amended ex5 4 (by decide)).1.2 (by decide)).1⟩⟩

/-! ### C9: first-row features -/

/-- **C9** counterexample: in a sequence whose first observation lacks a
pressure reading while a later one has it, the pressure column exists with
a NaN first cell, so the first row's `pressure_rolling_avg` is NaN — not
the claimed pressure-or-1013 default of the first observation. -/
theorem first_row_pressure_counterexample :
    (exMixed.getD 0 dObs).pressure = none
  ∧ ((prepare_features exMixed).1.getD 0 dRow).pressure_rolling_avg = none
  ∧ ¬ ((prepare_features exMixed).1.getD 0 dRow).pressure_rolling_avg
        = some ((exMixed.getD 0 dObs).pressure.getD 1013) := by
  refine ⟨?_, ?_, ?_⟩ <;> with_unfolding_all decide

/-- **C9** amended: for every non-empty input, the first row's temperature
and humidity rolling-average features are the first observation's own
values; the pressure feature is the first observation's own pressure when
present, 1013 when no observation in the sequence carries a pressure, and
NaN when the first observation lacks pressure but some other observation
has one. -/
theorem first_row_features_amended (data : List Obs) (h : data ≠ []) :
    ((prepare_features data).1.getD 0 dRow).temp_rolling_avg = (data.getD 0 dObs).temperature
  ∧ ((prepare_features data).1.getD 0 dRow).humidity_rolling_avg = (data.getD 0 dObs).humidity
  ∧ (∀ q : ℚ, (data.getD 0 dObs).pressure = some q →
      ((prepare_features data).1.getD 0 dRow).pressure_rolling_avg = some q)
  ∧ (data.all (fun o => o.pressure.isNone) = true →
      ((prepare_features data).1.getD 0 dRow).pressure_rolling_avg = some 1013)
  ∧ ((data.getD 0 dObs).pressure = none → data.all (fun o => o.pressure.isNone) = false →
      ((prepare_features data).1.getD 0 dRow).pressure_rolling_avg = none) := by
  obtain ⟨x, rest, rfl⟩ := List.exists_cons_of_ne_nil h
  have hi0 : 0 < (x :: rest).length := by simp
  by_cases h5 : 5 < (x :: rest).length
  · have hrow : (prepare_features (x :: rest)).1.getD 0 dRow
        = featureRow (x :: rest) (rollingAvg5 ((x :: rest).map (fun o => o.temperature)))
            (rollingAvg5 ((x :: rest).map (fun o => o.humidity)))
            (rollingAvg5Opt (pressureSeries (x :: rest))) 0 := by
      simp only [prepare_features, if_pos h5]
      exact getD_map_range _ _ hi0
    refine ⟨?_, ?_, ?_, ?_, ?_⟩
    · rw [hrow]
      simp only [featureRow]
      rw [rollingAvg5_getD _ (by simp)]
      simp [window5_cons_zero, listMean_singleton]
    · rw [hrow]
      simp only [featureRow]
      rw [rollingAvg5_getD _ (by simp)]
      simp [window5_cons_zero, listMean_singleton]
    · intro q hq
      have hq' : x.pressure = some q := by simpa using hq
      have hser : pressureSeries (x :: rest) = x.pressure :: rest.map (fun o => o.pressure) := by
        have hcond : (x :: rest).all (fun o => o.pressure.isNone) = false := by
          simp [List.all_cons, hq']
        simp [pressureSeries, hcond]
      rw [hrow]
      simp only [featureRow]
      rw [rollingAvg5Opt_getD _ (by rw [pressureSeries_length]; exact hi0), hser, hq',
        window5_cons_zero]
      exact meanOpt_singleton_some q
    · intro hall
      have hser : pressureSeries (x :: rest)
          = some 1013 :: rest.map (fun _ => some (1013 : ℚ)) := by
        simp [pressureSeries, hall]
      rw [hrow]
      simp only [featureRow]
      rw [rollingAvg5Opt_getD _ (by rw [pressureSeries_length]; exact hi0), hser,
        window5_cons_zero]
      exact meanOpt_singleton_some 1013
    · intro hq hall
      have hq' : x.pressure = none := by simpa using hq
      have hser : pressureSeries (x :: rest) = x.pressure :: rest.map (fun o => o.pressure) := by
        simp [pressureSeries, hall]
      rw [hrow]
      simp only [featureRow]
      rw [rollingAvg5Opt_getD _ (by rw [pressureSeries_length]; exact hi0), hser, hq',
        window5_cons_zero]
      exact meanOpt_singleton_none
  · have hrow : (prepare_features (x :: rest)).1.getD 0 dRow
        = featureRow (x :: rest) ((x :: rest).map (fun o => o.temperature))
            ((x :: rest).map (fun o => o.humidity)) (pressureSeries (x :: rest)) 0 := by
      simp only [prepare_features, if_neg h5]
      exact getD_map_range _ _ hi0
    refine ⟨?_, ?_, ?_, ?_, ?_⟩
    · rw [hrow]
      simp only [featureRow]
      simp
    · rw [hrow]
      simp only [featureRow]
      simp
    · intro q hq
      have hq' : x.pressure = some q := by simpa using hq
      have hser : pressureSeries (x :: rest) = x.pressure :: rest.map (fun o => o.pressure) := by
        have hcond : (x :: rest).all (fun o => o.pressure.isNone) = false := by
          simp [List.all_cons, hq']
        simp [pressureSeries, hcond]
      rw [hrow]
      simp only [featureRow]
      rw [hser, hq']
      rfl
    · intro hall
      have hser : pressureSeries (x :: rest)
          = some 1013 :: rest.map (fun _ => some (1013 : ℚ)) := by
        simp [pressureSeries, hall]
      rw [hrow]
      simp only [featureRow]
      rw [hser]
      rfl
    · intro hq hall
      have hq' : x.pressure = none := by simpa using hq
      have hser : pressureSeries (x :: rest) = x.pressure :: rest.map (fun o => o.pressure) := by
        simp [pressureSeries, hall]
      rw [hrow]
      simp only [featureRow]
      rw [hser, hq']
      rfl

/-- Witness for `first_row_features_amended` at the 5-element history,
whose observations carry no pressure readings. -/
theorem first_row_features_amended_witness :
    (ex5 ≠ []) ∧ ex5.all (fun o => o.pressure.isNone) = true ∧
      ((prepare_features ex5).1.getD 0 dRow).temp_rolling_avg
          = (ex5.getD 0 dObs).temperature ∧
      ((prepare_features ex5).1.getD 0 dRow).pressure_rolling_avg = some 1013 :=
  ⟨by decide, by decide,
   (first_row_features_amended ex5 (by decide)).1,
   (first_row_features_amended ex5 (by decide)).2.2.2.1 (by decide)⟩

end WeatherApp
